import Mathlib

/-!
Verification of the elera-scanbook barcode subsystem: the GS1 element
string builder (`buildGs1String` in the AddItemModal component), the
linear barcode canvas renderer (`Barcode` component), the GS1 DataMatrix
adapter with its two-tier fallback (`DataMatrixBarcode` component), and
the case-insensitive SKU duplicate checks (`checkDuplicate`,
`checkExistingDuplicate`, `handlePreview`, `handleImport`).

The JavaScript source is embedded shallowly: form state fields are Lean
strings (the React form always stores strings), JavaScript string
methods are modelled by executable Lean functions with the same
semantics on the relevant domain, numbers flowing through
`parseFloat` and `toFixed` are modelled as rationals with `NaN`
represented by `Option.none`, and the one JavaScript statement that can
throw a TypeError (`formData.sku.padStart` when `sku` is `undefined`)
is modelled with `Except` over a field record with optional fields.
-/

namespace ScanBook

/-- Model of JavaScript `s.padStart(n, c)` for a one-character pad
string: left-pad `s` with `c` up to length `n`; a string already at
least `n` long is returned unchanged. -/
def padStart (s : String) (n : Nat) (c : Char) : String :=
  if s.length ≥ n then s
  else String.mk (List.replicate (n - s.length) c) ++ s

/-- Model of the JavaScript idiom `String(v).replace(/[^0-9]/g, "")`:
keep only the decimal digit characters. -/
def digitsOnly (s : String) : String :=
  String.mk (s.data.filter Char.isDigit)

/-- Model of JavaScript `s.replace(/[-]/g, "")`: remove every dash. -/
def stripDashes (s : String) : String :=
  String.mk (s.data.filter (fun c => c ≠ '-'))

/-- Model of JavaScript `s.substring(2)`: drop the first two
characters (total, yields `""` on short strings). -/
def jsSubstring2 (s : String) : String :=
  String.mk (s.data.drop 2)

/-- Model of the JavaScript string disjunction `a || b`: a string is
truthy exactly when it is nonempty. -/
def jsOr (a b : String) : String :=
  if a ≠ "" then a else b

/-- The date formatting expression of `buildGs1String`:
`date.replace(/[-]/g, "").substring(2)`. -/
def formatDate (s : String) : String :=
  jsSubstring2 (stripDashes s)

/-- Accumulate a run of leading decimal digits: returns the numeric
value, the number of digits consumed and the remaining characters. -/
def takeDigits : List Char → Nat → Nat → Nat × Nat × List Char
  | [], acc, cnt => (acc, cnt, [])
  | c :: cs, acc, cnt =>
    if c.isDigit then takeDigits cs (acc * 10 + (c.toNat - '0'.toNat)) (cnt + 1)
    else (acc, cnt, c :: cs)

/-- Model of JavaScript `parseFloat` restricted to plain decimal
literals (optional sign, integer part, optional fraction part), the
only shapes a numeric form input produces; `none` models `NaN`, which
`parseFloat` returns when no digit can be parsed. Exponent notation
and `Infinity` are outside the modelled domain. -/
def jsParseFloat (s : String) : Option ℚ :=
  let cs := s.data
  let (neg, cs1) :=
    match cs with
    | '-' :: t => (true, t)
    | '+' :: t => (false, t)
    | _ => (false, cs)
  let (ip, icnt, cs2) := takeDigits cs1 0 0
  let (fp, fcnt) :=
    match cs2 with
    | '.' :: t =>
      let (f, fc, _) := takeDigits t 0 0
      (f, fc)
    | _ => (0, 0)
  if icnt = 0 ∧ fcnt = 0 then none
  else
    let mag : ℚ := (ip : ℚ) + (fp : ℚ) / ((10 : ℚ) ^ fcnt)
    some (if neg then -mag else mag)

/-- The rounding used by JavaScript `x.toFixed(0)`: the integer
nearest to `x`, ties resolved to the larger integer. -/
def jsRound (x : ℚ) : ℤ :=
  ⌊x + 1 / 2⌋

/-- Model of JavaScript `x.toFixed(0)` where `x` may be `NaN`
(modelled as `none`): `NaN` stringifies to `"NaN"`, a number to the
decimal form of its rounding. -/
def jsToFixed0 : Option ℚ → String
  | none => "NaN"
  | some x => toString (jsRound x)

/-- The form state of the AddItemModal component: every field is a
string, initialised to `""` (or to `"kg"`, `"EA"`, ... for the select
fields) and kept a string by every update.  Only the fields read by
`buildGs1String` are modelled. -/
structure GS1FormData where
  gtin : String
  sku : String
  productionDate : String
  bestBeforeDate : String
  sellByDate : String
  expirationDate : String
  batchLot : String
  serialNumber : String
  weight : String
  weightUnit : String
deriving DecidableEq, Repr

/-- A form state with every text field empty and the weight unit at
its initial value, used as a base for concrete examples. -/
def emptyForm : GS1FormData :=
  { gtin := "", sku := "", productionDate := "", bestBeforeDate := ""
    sellByDate := "", expirationDate := "", batchLot := ""
    serialNumber := "", weight := "", weightUnit := "kg" }

/-- The GTIN local of `buildGs1String`:
`formData.gtin || formData.sku.padStart(14, "0")`. -/
def gtinField (fd : GS1FormData) : String :=
  jsOr fd.gtin (padStart fd.sku 14 '0')

/-- The weight AI family selector of `buildGs1String`:
`formData.weightUnit === "kg" ? "310" : "320"`. -/
def weightAI (fd : GS1FormData) : String :=
  if fd.weightUnit = "kg" then "310" else "320"

/-- The weight value expression of `buildGs1String`:
`(parseFloat(formData.weight) * 1000).toFixed(0).padStart(6, "0")`. -/
def weightVal (fd : GS1FormData) : String :=
  padStart (jsToFixed0 ((jsParseFloat fd.weight).map (· * 1000))) 6 '0'

/-- The weight segment appended by `buildGs1String` when
`formData.weight` is truthy. -/
def weightSegment (fd : GS1FormData) : String :=
  if fd.weight ≠ "" then "(" ++ weightAI fd ++ "3)" ++ weightVal fd else ""

/-- Shallow embedding of `buildGs1String` (AddItemModal): starting
from the GTIN segment `(01)...`, append one `(AI)value` segment for
each truthy optional field, in source order: production date (11),
best-before (15), sell-by (16), expiration (17), batch/lot (10),
serial (21), then the weight family (310x/320x). -/
def buildGs1String (fd : GS1FormData) : String :=
  let gs1 := "(01)" ++ gtinField fd
  let gs1 := if fd.productionDate ≠ "" then gs1 ++ "(11)" ++ formatDate fd.productionDate else gs1
  let gs1 := if fd.bestBeforeDate ≠ "" then gs1 ++ "(15)" ++ formatDate fd.bestBeforeDate else gs1
  let gs1 := if fd.sellByDate ≠ "" then gs1 ++ "(16)" ++ formatDate fd.sellByDate else gs1
  let gs1 := if fd.expirationDate ≠ "" then gs1 ++ "(17)" ++ formatDate fd.expirationDate else gs1
  let gs1 := if fd.batchLot ≠ "" then gs1 ++ "(10)" ++ fd.batchLot else gs1
  let gs1 := if fd.serialNumber ≠ "" then gs1 ++ "(21)" ++ fd.serialNumber else gs1
  gs1 ++ weightSegment fd

/-- The submit handler `handleSubmit` stores `buildGs1String()` as
both `gs1String` and `gs1Display` of the saved item, so the display
form of an item is the built string itself. -/
def gs1DisplayOf (fd : GS1FormData) : String :=
  buildGs1String fd

/-! ### Spec-side rendering of the fixed field order

The following two definitions follow the wording of the specification
(section 3 field table and the `toDisplay` contract), for comparison
with the source-derived `buildGs1String`: the present fields listed in
the fixed order with their formatted values, and the display form that
wraps each AI in parentheses. -/

/-- Spec-side: the `(AI, value)` pairs of the present fields, in the
fixed field order of section 3 of the spec: GTIN, production date
(11), best-before (15), sell-by (16), expiration (17), batch/lot (10),
serial (21), net weight (310x/320x).  The GTIN pair is always present;
an absent optional field contributes no pair. -/
def specOrderedFields (fd : GS1FormData) : List (String × String) :=
  [("01", gtinField fd)]
  ++ ((if fd.productionDate ≠ "" then [("11", formatDate fd.productionDate)] else [])
  ++ ((if fd.bestBeforeDate ≠ "" then [("15", formatDate fd.bestBeforeDate)] else [])
  ++ ((if fd.sellByDate ≠ "" then [("16", formatDate fd.sellByDate)] else [])
  ++ ((if fd.expirationDate ≠ "" then [("17", formatDate fd.expirationDate)] else [])
  ++ ((if fd.batchLot ≠ "" then [("10", fd.batchLot)] else [])
  ++ ((if fd.serialNumber ≠ "" then [("21", fd.serialNumber)] else [])
  ++ (if fd.weight ≠ "" then [(weightAI fd ++ "3", weightVal fd)] else [])))))))

/-- Spec-side: the human display form of a list of `(AI, value)`
pairs, each AI wrapped in parentheses and followed by its value. -/
def specDisplay : List (String × String) → String
  | [] => ""
  | p :: ps => "(" ++ p.1 ++ ")" ++ p.2 ++ specDisplay ps

/-- The master AI order of the section 3 field table; the weight AIs
are listed in both unit variants. -/
def specAIOrder : List String :=
  ["01", "11", "15", "16", "17", "10", "21", "3103", "3203"]

/-! ### The build function over JavaScript-shaped input

To assess totality over arbitrary field sets (fields possibly absent,
i.e. `undefined`), the same function is embedded once more over a
record of optional fields, with `Except` marking the one place the
JavaScript can throw: `formData.sku.padStart(14, "0")` is a TypeError
when `formData.sku` is `undefined`. -/

/-- A field set in which any field may be absent (`none` models
JavaScript `undefined`). -/
structure GS1FieldsOpt where
  gtin : Option String
  sku : Option String
  productionDate : Option String
  bestBeforeDate : Option String
  sellByDate : Option String
  expirationDate : Option String
  batchLot : Option String
  serialNumber : Option String
  weight : Option String
  weightUnit : Option String
deriving DecidableEq, Repr

/-- JavaScript truthiness of a possibly absent string: `undefined`
and `""` are falsy. -/
def jsTruthyO : Option String → Bool
  | none => false
  | some s => s ≠ ""

/-- The string content of a possibly absent field, `""` when absent
(only ever used behind a truthiness guard, as in the source). -/
def getO : Option String → String
  | none => ""
  | some s => s

/-- A field set with every field absent. -/
def allAbsent : GS1FieldsOpt :=
  { gtin := none, sku := none, productionDate := none, bestBeforeDate := none
    sellByDate := none, expirationDate := none, batchLot := none
    serialNumber := none, weight := none, weightUnit := none }

/-- Shallow embedding of `buildGs1String` over a field set with
possibly absent fields, marking the JavaScript throw site: the GTIN
line `formData.gtin || formData.sku.padStart(14, "0")` dereferences
`formData.sku` whenever `formData.gtin` is falsy, a TypeError when
`sku` is absent.  Every other field access sits behind a truthiness
guard, so absence only skips the segment. -/
def buildGs1StringJS (fd : GS1FieldsOpt) : Except String String := do
  let gtin ←
    if jsTruthyO fd.gtin then pure (getO fd.gtin)
    else
      match fd.sku with
      | none => throw "TypeError: cannot read padStart of undefined"
      | some s => pure (padStart s 14 '0')
  let gs1 := "(01)" ++ gtin
  let gs1 := if jsTruthyO fd.productionDate then gs1 ++ "(11)" ++ formatDate (getO fd.productionDate) else gs1
  let gs1 := if jsTruthyO fd.bestBeforeDate then gs1 ++ "(15)" ++ formatDate (getO fd.bestBeforeDate) else gs1
  let gs1 := if jsTruthyO fd.sellByDate then gs1 ++ "(16)" ++ formatDate (getO fd.sellByDate) else gs1
  let gs1 := if jsTruthyO fd.expirationDate then gs1 ++ "(17)" ++ formatDate (getO fd.expirationDate) else gs1
  let gs1 := if jsTruthyO fd.batchLot then gs1 ++ "(10)" ++ getO fd.batchLot else gs1
  let gs1 := if jsTruthyO fd.serialNumber then gs1 ++ "(21)" ++ getO fd.serialNumber else gs1
  let gs1 :=
    if jsTruthyO fd.weight then
      let ai := if getO fd.weightUnit = "kg" ∧ fd.weightUnit ≠ none then "310" else "320"
      let v := padStart (jsToFixed0 ((jsParseFloat (getO fd.weight)).map (· * 1000))) 6 '0'
      gs1 ++ "(" ++ ai ++ "3)" ++ v
    else gs1
  pure gs1

/-! ### The linear barcode renderer

Embedding of the `Barcode` component canvas effect.  The effect
returns early, drawing nothing, when the `value` prop is falsy; this
no-draw outcome is modelled as `none`.  Otherwise the canvas is sized
from the digit-stripped value and painted: every black `fillRect` bar
has width `barWidth = 2` and full bar height, so the bar list records
the x coordinates only. -/

/-- The digit-to-module table of the `Barcode` component together
with its lookup fallback `patterns[digit] || patterns["0"]`: any
character outside the table yields the pattern of the digit zero. -/
def patterns (c : Char) : String :=
  match c with
  | '0' => "1110010"
  | '1' => "1100110"
  | '2' => "1101100"
  | '3' => "1000010"
  | '4' => "1011100"
  | '5' => "1001110"
  | '6' => "1010000"
  | '7' => "1000100"
  | '8' => "1001000"
  | '9' => "1110100"
  | _ => "1110010"

/-- Paint one digit pattern starting at x: a bar for each `1` bit,
advancing 2 per bit, then a 2-wide gap before the next digit.
Returns the bar x coordinates and the new x. -/
def drawDigit (x : Nat) (c : Char) : List Nat × Nat :=
  let step := (patterns c).data.foldl
    (fun (acc : List Nat × Nat) bit =>
      (if bit = '1' then acc.1 ++ [acc.2] else acc.1, acc.2 + 2))
    ([], x)
  (step.1, step.2 + 2)

/-- Paint a digit string starting at x, digit by digit. -/
def drawCode : Nat → List Char → List Nat × Nat
  | x, [] => ([], x)
  | x, c :: cs =>
    let d := drawDigit x c
    let rest := drawCode d.2 cs
    (d.1 ++ rest.1, rest.2)

/-- The canvas produced by one run of the `Barcode` effect: the
canvas dimensions, the x coordinates of the painted bars (each of
width 2 and full bar height), and the text painted beneath. -/
structure BarcodeCanvas where
  width : Nat
  height : Nat
  bars : List Nat
  text : String
deriving DecidableEq, Repr

/-- Shallow embedding of the `Barcode` component effect: `none` when
the value is falsy (the effect returns before touching the canvas);
otherwise the canvas sized by the digit count formula and painted
with the start guard, the digit patterns and the end guard. -/
def barcodeRender (value : String) (height : Nat) : Option BarcodeCanvas :=
  if value = "" then none
  else
    let code := digitsOnly value
    let barWidth := 2
    let width := code.length * 11 * barWidth + 40
    let startGuard : List Nat := [20, 20 + barWidth * 2]
    let body := drawCode (20 + barWidth * 2 + barWidth * 2) code.data
    let endGuard : List Nat := [body.2, body.2 + barWidth * 2]
    some { width := width, height := height + 20
           bars := startGuard ++ body.1 ++ endGuard, text := value }

/-! ### The GS1 DataMatrix adapter and its two-tier fallback

Embedding of the `DataMatrixBarcode` render effect.  The external
bwipjs backend is abstracted as a failure oracle `fails payload
parsefnc` saying whether `bwipjs.toCanvas` throws on that payload with
or without GS1 parsing.  The effect first tries the GS1-framed
payload `gs1Data || "(01)" + value` with `parsefnc: true`; on a throw
it retries exactly once with `value.replace(/[^0-9]/g, "")` and no
GS1 parsing; on a second throw it sets the error state, which renders
the textual placeholder naming the symbology and showing `value`. -/

/-- One render outcome of the DataMatrix effect: a successful canvas
draw of some payload, or the error-state placeholder with its
symbology label and the raw payload text. -/
inductive DMOutcome
  | ok (payload : String) (parsefnc : Bool)
  | placeholder (symbology : String) (payload : String)
deriving DecidableEq, Repr

/-- The first attempt payload: `gs1Data || "(01)" + value`. -/
def firstPayload (value : String) (gs1Data : Option String) : String :=
  if jsTruthyO gs1Data then getO gs1Data else "(01)" ++ value

/-- Shallow embedding of the `DataMatrixBarcode` try/catch ladder,
returning the outcome together with the list of attempted
`(payload, parsefnc)` calls in order. -/
def renderDataMatrix (fails : String → Bool → Bool) (value : String)
    (gs1Data : Option String) : DMOutcome × List (String × Bool) :=
  let p1 := firstPayload value gs1Data
  if fails p1 true then
    let p2 := digitsOnly value
    if fails p2 false then
      (DMOutcome.placeholder "GS1 2D DataMatrix" value, [(p1, true), (p2, false)])
    else
      (DMOutcome.ok p2 false, [(p1, true), (p2, false)])
  else
    (DMOutcome.ok p1 true, [(p1, true)])

/-! ### SKU duplicate detection

Embedding of `checkDuplicate` (AddItemModal), `checkExistingDuplicate`
with the batch scan of `handlePreview`, and the duplicate filter of
`handleImport` (ImportModal). -/

/-- An item as far as duplicate detection is concerned. -/
structure Item where
  sku : String
  name : String
deriving DecidableEq, Repr

/-- The lowercased SKU of an item (`item.sku.toLowerCase()`). -/
def lsk (i : Item) : String :=
  i.sku.toLower

/-- Shallow embedding of `checkDuplicate` (AddItemModal): `null` for
a falsy SKU, otherwise the first existing item whose lowercased SKU
equals the lowercased candidate, excluding (in edit mode) the item
being edited. -/
def checkDuplicate (existingItems : List Item) (editItem : Option Item)
    (sku : String) : Option Item :=
  if sku = "" then none
  else existingItems.find? (fun item =>
    item.sku.toLower == sku.toLower &&
      (match editItem with
       | none => true
       | some e => item.sku.toLower != e.sku.toLower))

/-- Shallow embedding of `checkExistingDuplicate` (ImportModal) as a
test: whether some existing item has the same lowercased SKU. -/
def matchesExisting (existing : List Item) (i : Item) : Bool :=
  existing.any (fun e => e.sku.toLower == i.sku.toLower)

/-- The duplicate scan of `handlePreview`: walk the import batch with
the set of already seen lowercased SKUs; an item is flagged when it
matches an existing item, or else when its lowercased SKU was already
seen in the batch; every item adds its lowercased SKU to the seen set.
Returns the flagged items. -/
def dupScan (existing : List Item) : List String → List Item → List Item
  | _, [] => []
  | seen, i :: rest =>
    let d := dupScan existing (lsk i :: seen) rest
    if matchesExisting existing i then i :: d
    else if seen.contains (lsk i) then i :: d
    else d

/-- The lowercased SKUs of the flagged duplicates
(`duplicates.map(d => d.item.sku.toLowerCase())`). -/
def dupSkus (existing : List Item) (batch : List Item) : List String :=
  (dupScan existing [] batch).map lsk

/-- The import filter of `handleImport`: keep the batch items whose
lowercased SKU is not among the flagged duplicate SKUs. -/
def itemsToImport (existing : List Item) (batch : List Item) : List Item :=
  batch.filter (fun i => ! (dupSkus existing batch).contains (lsk i))

/-! ## Helper lemmas -/

theorem str_append_empty (s : String) : s ++ "" = s := by
  rcases s with ⟨l⟩
  show String.mk (l ++ []) = String.mk l
  rw [List.append_nil]

theorem ite_append2 (c : Prop) [Decidable c] (a l v : String) :
    (if c then a ++ l ++ v else a) = a ++ (if c then l ++ v else "") := by
  split
  · rw [String.append_assoc]
  · rw [str_append_empty]

theorem specDisplay_append (l₁ l₂ : List (String × String)) :
    specDisplay (l₁ ++ l₂) = specDisplay l₁ ++ specDisplay l₂ := by
  induction l₁ with
  | nil =>
    rw [List.nil_append]
    show specDisplay l₂ = "" ++ specDisplay l₂
    rfl
  | cons p ps ih => simp [specDisplay, ih, String.append_assoc]

theorem specDisplay_ite_single (c : Prop) [Decidable c] (p : String × String) :
    specDisplay (if c then [p] else []) =
      (if c then "(" ++ p.1 ++ ")" ++ p.2 else "") := by
  split
  · show "(" ++ p.1 ++ ")" ++ p.2 ++ specDisplay [] = _
    rw [show specDisplay [] = "" from rfl, str_append_empty]
  · rfl

theorem specDisplay_single (p : String × String) :
    specDisplay [p] = "(" ++ p.1 ++ ")" ++ p.2 := by
  show "(" ++ p.1 ++ ")" ++ p.2 ++ specDisplay [] = _
  rw [show specDisplay [] = "" from rfl, str_append_empty]

/-- The source build agrees with the spec-side rendering of the
present fields in the fixed order. -/
theorem build_eq_specDisplay (fd : GS1FormData) :
    buildGs1String fd = specDisplay (specOrderedFields fd) := by
  unfold buildGs1String specOrderedFields weightSegment
  simp only [ite_append2, specDisplay_append, specDisplay_ite_single,
    specDisplay_single]
  simp only [String.append_assoc]
  rfl

/-- The AIs of the present fields form a subsequence of the master AI
order. -/
theorem specOrderedFields_sublist (fd : GS1FormData) :
    ((specOrderedFields fd).map Prod.fst).Sublist specAIOrder := by
  unfold specOrderedFields specAIOrder
  simp only [List.map_append,
    apply_ite (List.map (Prod.fst (α := String) (β := String))),
    List.map_cons, List.map_nil]
  show List.Sublist (_ ++ (_ ++ (_ ++ (_ ++ (_ ++ (_ ++ (_ ++ _)))))))
    (["01"] ++ (["11"] ++ (["15"] ++ (["16"] ++ (["17"] ++ (["10"] ++
      (["21"] ++ ["3103", "3203"])))))))
  refine List.Sublist.append (List.Sublist.refl _) (List.Sublist.append ?_
    (List.Sublist.append ?_ (List.Sublist.append ?_ (List.Sublist.append ?_
    (List.Sublist.append ?_ (List.Sublist.append ?_ ?_))))))
  all_goals try first
    | (split
       · exact List.Sublist.refl _
       · exact List.nil_sublist _)
  split
  · unfold weightAI
    split
    · exact (by decide : (["3103"] : List String).Sublist ["3103", "3203"])
    · exact (by decide : (["3203"] : List String).Sublist ["3103", "3203"])
  · exact List.nil_sublist _

/-! ## Claim theorems -/

/-- C1, counterexample to the claim as stated: on the example field
set, `buildGs1String` does not yield the bare element string
`"010004900000044316251215"` claimed by the spec; it directly yields
the parenthesised display form. -/
theorem c1_counterexample :
    buildGs1String { emptyForm with gtin := "00049000000443", sellByDate := "2025-12-15" }
      = "(01)00049000000443(16)251215" ∧
    buildGs1String { emptyForm with gtin := "00049000000443", sellByDate := "2025-12-15" }
      ≠ "010004900000044316251215" := by
  constructor
  · rfl
  · decide

/-- C1 (amended): the display string of a saved GS1 item
(`gs1Display`, set by `handleSubmit` to `buildGs1String()`) always
renders each AI wrapped in parentheses in the fixed field order of
the spec, for every field set; on the example field set it is
`"(01)00049000000443(16)251215"`.  There is no separate bare element
string stage: the built string is already the parenthesised form. -/
theorem c1_display_round_trip (fd : GS1FormData) :
    gs1DisplayOf fd = specDisplay (specOrderedFields fd) ∧
    gs1DisplayOf { emptyForm with gtin := "00049000000443", sellByDate := "2025-12-15" }
      = "(01)00049000000443(16)251215" := by
  exact ⟨build_eq_specDisplay fd, rfl⟩

/-- C2: for every field set, the string produced by `buildGs1String`
lists its present fields in the fixed order GTIN, production date
(11), best-before (15), sell-by (16), expiration (17), batch/lot
(10), serial (21), net weight (310x/320x): it is exactly the
concatenation of one parenthesised AI tag immediately followed by its
formatted value per present field, absent optional fields
contributing nothing, and the AI tags appear as a subsequence of the
master AI order. -/
theorem c2_fixed_field_order (fd : GS1FormData) :
    buildGs1String fd = specDisplay (specOrderedFields fd) ∧
    ((specOrderedFields fd).map Prod.fst).Sublist specAIOrder :=
  ⟨build_eq_specDisplay fd, specOrderedFields_sublist fd⟩

/-- C6: when no explicit GTIN is supplied (the `gtin` form field is
empty, hence falsy), the GTIN field of the built string is the SKU
left-padded to 14 characters with zero; in particular SKU
`"123456"` gives GTIN field `"00000000123456"`. -/
theorem c6_gtin_default (fd : GS1FormData) (h : fd.gtin = "") :
    gtinField fd = padStart fd.sku 14 '0' ∧
    gtinField { emptyForm with sku := "123456" } = "00000000123456" := by
  constructor
  · unfold gtinField jsOr
    rw [h]
    simp
  · rfl

/-- C6 witness: the theorem applied to the concrete example form. -/
theorem c6_gtin_default_witness :
    gtinField { emptyForm with sku := "123456" } = padStart "123456" 14 '0' ∧
    gtinField { emptyForm with sku := "123456" } = "00000000123456" :=
  c6_gtin_default { emptyForm with sku := "123456" } rfl

/-- The `toFixed(0)` rounding lands on an integer nearest to its
argument: it is within one half of it. -/
theorem jsRound_nearest (x : ℚ) : |(jsRound x : ℚ) - x| ≤ 1 / 2 := by
  unfold jsRound
  have h1 : (⌊x + 1 / 2⌋ : ℚ) ≤ x + 1 / 2 := Int.floor_le _
  have h2 : x + 1 / 2 - 1 < (⌊x + 1 / 2⌋ : ℚ) := Int.sub_one_lt_floor _
  rw [abs_le]
  constructor <;> linarith

/-- The weight form input `"1.5"` parses to three halves. -/
theorem jsParseFloat_one_point_five : jsParseFloat "1.5" = some ((3 : ℚ) / 2) := by
  rw [show jsParseFloat "1.5"
      = some (((1 : ℕ) : ℚ) + ((5 : ℕ) : ℚ) / (10 : ℚ) ^ (1 : ℕ)) from rfl]
  norm_num

/-- Rounding 1500 with `toFixed(0)` gives 1500. -/
theorem jsRound_1500 : jsRound ((3 : ℚ) / 2 * 1000) = 1500 := by
  unfold jsRound
  norm_num [Int.floor_eq_iff]

/-- C7: a present weight field is emitted as the AI `3103` segment
for unit kg and `3203` otherwise (in particular for lb): the parsed
weight is multiplied by 1000, rounded by `toFixed(0)` to an integer
within one half of the product (nearest, ties upward), and
zero-padded to 6 digits; weight `"1.5"` kg gives segment
`"(3103)001500"`. -/
theorem c7_weight_encoding (fd : GS1FormData) (q : ℚ)
    (hw : fd.weight ≠ "") (hp : jsParseFloat fd.weight = some q) :
    weightSegment fd =
      "(" ++ (if fd.weightUnit = "kg" then "310" else "320") ++ "3)"
        ++ padStart (toString (jsRound (q * 1000))) 6 '0' ∧
    |(jsRound (q * 1000) : ℚ) - q * 1000| ≤ 1 / 2 ∧
    weightSegment { emptyForm with weight := "1.5" } = "(3103)001500" := by
  refine ⟨?_, jsRound_nearest _, ?_⟩
  · unfold weightSegment weightAI weightVal
    rw [if_pos hw, hp]
    rfl
  · unfold weightSegment weightAI weightVal
    rw [if_pos (by decide : ({ emptyForm with weight := "1.5" } : GS1FormData).weight ≠ "")]
    rw [show ({ emptyForm with weight := "1.5" } : GS1FormData).weight = "1.5" from rfl,
      jsParseFloat_one_point_five]
    rw [show Option.map (· * 1000) (some ((3 : ℚ) / 2)) = some ((3 : ℚ) / 2 * 1000) from rfl]
    rw [show jsToFixed0 (some ((3 : ℚ) / 2 * 1000)) = toString (jsRound ((3 : ℚ) / 2 * 1000)) from rfl]
    rw [jsRound_1500]
    rfl

/-- C7 witness: the theorem applied at weight `"1.5"`, unit kg. -/
theorem c7_weight_encoding_witness :
    weightSegment { emptyForm with weight := "1.5" } =
      "(" ++ (if ("kg" : String) = "kg" then "310" else "320") ++ "3)"
        ++ padStart (toString (jsRound ((3 : ℚ) / 2 * 1000))) 6 '0' :=
  (c7_weight_encoding { emptyForm with weight := "1.5" } ((3 : ℚ) / 2)
    (by decide) jsParseFloat_one_point_five).1

theorem str_nil_append (s : String) : "" ++ s = s := by
  rcases s with ⟨l⟩
  rfl

theorem stripDashes_append (a b : String) :
    stripDashes (a ++ b) = stripDashes a ++ stripDashes b := by
  rcases a with ⟨la⟩
  rcases b with ⟨lb⟩
  show String.mk ((la ++ lb).filter _) = String.mk (la.filter _ ++ lb.filter _)
  rw [List.filter_append]

/-- A digit character is never a dash, so stripping dashes from an
all-digit string changes nothing. -/
theorem stripDashes_digits (s : String) (h : s.data.all Char.isDigit = true) :
    stripDashes s = s := by
  rcases s with ⟨l⟩
  show String.mk (l.filter _) = String.mk l
  rw [List.filter_eq_self.mpr]
  intro a ha
  have hd : a.isDigit = true := by
    rw [List.all_eq_true] at h
    exact h a ha
  simp only [decide_eq_true_eq]
  intro he
  rw [he] at hd
  exact absurd hd (by decide)

theorem str_data_append (a b : String) : (a ++ b).data = a.data ++ b.data := by
  rcases a with ⟨la⟩
  rcases b with ⟨lb⟩
  rfl

theorem str_length_data (s : String) : s.length = s.data.length := rfl

/-- C8: for a date input in ISO `YYYY-MM-DD` form (four digits, dash,
two digits, dash, two digits), the date formatting of `buildGs1String`
strips the separators and keeps exactly the last 6 characters of the
result: a 6-character all-digit `YYMMDD` value, the two century
digits dropped. -/
theorem c8_date_truncation (y m d : String)
    (hy : y.length = 4) (hm : m.length = 2) (hd : d.length = 2)
    (hy2 : y.data.all Char.isDigit = true) (hm2 : m.data.all Char.isDigit = true)
    (hd2 : d.data.all Char.isDigit = true) :
    stripDashes (y ++ "-" ++ m ++ "-" ++ d) = y ++ m ++ d ∧
    (stripDashes (y ++ "-" ++ m ++ "-" ++ d)).length = 8 ∧
    (formatDate (y ++ "-" ++ m ++ "-" ++ d)).data
      = (stripDashes (y ++ "-" ++ m ++ "-" ++ d)).data.drop
          ((stripDashes (y ++ "-" ++ m ++ "-" ++ d)).length - 6) ∧
    (formatDate (y ++ "-" ++ m ++ "-" ++ d)).length = 6 ∧
    (formatDate (y ++ "-" ++ m ++ "-" ++ d)).data.all Char.isDigit = true := by
  have hstrip : stripDashes (y ++ "-" ++ m ++ "-" ++ d) = y ++ m ++ d := by
    rw [stripDashes_append, stripDashes_append, stripDashes_append, stripDashes_append,
      stripDashes_digits y hy2, stripDashes_digits m hm2, stripDashes_digits d hd2,
      show stripDashes "-" = "" from rfl, str_append_empty, str_append_empty]
  have hlen : (y ++ m ++ d).length = 8 := by
    rw [str_length_data, str_data_append, str_data_append, List.length_append,
      List.length_append, ← str_length_data, ← str_length_data, ← str_length_data,
      hy, hm, hd]
  have hfd : formatDate (y ++ "-" ++ m ++ "-" ++ d)
      = String.mk ((y ++ m ++ d).data.drop 2) := by
    unfold formatDate jsSubstring2
    rw [hstrip]
  refine ⟨hstrip, by rw [hstrip]; exact hlen, ?_, ?_, ?_⟩
  · rw [hstrip, hfd, hlen]
  · rw [hfd, str_length_data]
    show ((y ++ m ++ d).data.drop 2).length = 6
    rw [List.length_drop, ← str_length_data, hlen]
  · rw [hfd]
    show ((y ++ m ++ d).data.drop 2).all Char.isDigit = true
    rw [List.all_eq_true]
    intro a ha
    have hmem : a ∈ (y ++ m ++ d).data := List.drop_subset 2 _ ha
    rw [str_data_append, str_data_append] at hmem
    rcases List.mem_append.mp hmem with hmem2 | hmem3
    · rcases List.mem_append.mp hmem2 with hy3 | hm3
      · exact List.all_eq_true.mp hy2 a hy3
      · exact List.all_eq_true.mp hm2 a hm3
    · exact List.all_eq_true.mp hd2 a hmem3

/-- C8 witness: the theorem applied to the ISO date `2025-12-15`. -/
theorem c8_date_truncation_witness :
    stripDashes ("2025" ++ "-" ++ "12" ++ "-" ++ "15") = "2025" ++ "12" ++ "15" ∧
    (stripDashes ("2025" ++ "-" ++ "12" ++ "-" ++ "15")).length = 8 ∧
    (formatDate ("2025" ++ "-" ++ "12" ++ "-" ++ "15")).data
      = (stripDashes ("2025" ++ "-" ++ "12" ++ "-" ++ "15")).data.drop
          ((stripDashes ("2025" ++ "-" ++ "12" ++ "-" ++ "15")).length - 6) ∧
    (formatDate ("2025" ++ "-" ++ "12" ++ "-" ++ "15")).length = 6 ∧
    (formatDate ("2025" ++ "-" ++ "12" ++ "-" ++ "15")).data.all Char.isDigit = true :=
  c8_date_truncation "2025" "12" "15" rfl rfl rfl (by decide) (by decide) (by decide)

/-- C3, counterexample to the claim as stated: on the empty value the
`Barcode` effect returns before drawing anything, so no symbol at all
is rendered, rather than a fallback digit-zero pattern. -/
theorem c3_counterexample :
    barcodeRender "" 60 = none ∧
    ¬ ∃ c, barcodeRender "" 60 = some c ∧ c.bars ≠ [] := by
  refine ⟨rfl, ?_⟩
  rintro ⟨c, hc, -⟩
  simp [barcodeRender] at hc

/-- C3 (amended): the linear encoder never throws; on an empty value
it renders nothing at all (the effect returns early), while on any
nonempty value — including one with no digits — it still renders a
non-empty symbol (at least the guard bars).  The digit-zero fallback
of the pattern table only covers characters missing from the table,
which cannot occur after digit stripping. -/
theorem c3_empty_input (h : Nat) (v : String) :
    barcodeRender "" h = none ∧
    (v ≠ "" → ∃ c, barcodeRender v h = some c ∧ c.bars ≠ []) := by
  refine ⟨rfl, fun hv => ?_⟩
  unfold barcodeRender
  rw [if_neg hv]
  refine ⟨_, rfl, ?_⟩
  simp

/-- C3 witness: the theorem applied to the digit-free value `"abc"`
at bar height 60. -/
theorem c3_empty_input_witness :
    ∃ c, barcodeRender "abc" 60 = some c ∧ c.bars ≠ [] :=
  (c3_empty_input 60 "abc").2 (by decide)

/-- C4, counterexample to the claim as stated: on the empty value
nothing is rendered at all (the effect returns before sizing the
canvas), so no rendered width equals the formula value
`0 * 11 * 2 + 40 = 40`. -/
theorem c4_counterexample :
    barcodeRender "" 50 = none ∧
    ¬ ∃ c, barcodeRender "" 50 = some c
        ∧ c.width = (digitsOnly "").length * 11 * 2 + 40 := by
  refine ⟨rfl, ?_⟩
  rintro ⟨c, hc, -⟩
  simp [barcodeRender] at hc

/-- C4 (amended): for every nonempty input value, the rendered canvas
width is exactly `len(strippedDigits) * 11 * barWidth + 40` with
`barWidth = 2`, and the rendered height is `barHeight + 20` (the text
band). -/
theorem c4_width_formula (v : String) (h : Nat) (hv : v ≠ "") :
    ∃ c, barcodeRender v h = some c
      ∧ c.width = (digitsOnly v).length * 11 * 2 + 40
      ∧ c.height = h + 20 := by
  unfold barcodeRender
  rw [if_neg hv]
  exact ⟨_, rfl, rfl, rfl⟩

/-- C4 witness: the 11-digit spec example `"05100006007"` at bar
height 60 renders at width `11 * 11 * 2 + 40 = 282` and height 80. -/
theorem c4_width_formula_witness :
    ∃ c, barcodeRender "05100006007" 60 = some c ∧ c.width = 282 ∧ c.height = 80 := by
  obtain ⟨c, hc, hw, hh⟩ := c4_width_formula "05100006007" 60 (by decide)
  refine ⟨c, hc, ?_, hh⟩
  rw [hw]
  decide

/-- C5: whenever the GS1-framed first DataMatrix render attempt
fails, the adapter attempts exactly one retry, whose payload is the
raw value reduced to digits only and which carries no GS1 framing;
if that retry also fails the outcome is the terminal placeholder
showing the symbology name and the raw payload, with no further
attempts. -/
theorem c5_two_tier_fallback (fails : String → Bool → Bool) (value : String)
    (g : Option String) (h : fails (firstPayload value g) true = true) :
    (renderDataMatrix fails value g).2
      = [(firstPayload value g, true), (digitsOnly value, false)] ∧
    (fails (digitsOnly value) false = true →
      (renderDataMatrix fails value g).1
        = DMOutcome.placeholder "GS1 2D DataMatrix" value) ∧
    (fails (digitsOnly value) false = false →
      (renderDataMatrix fails value g).1 = DMOutcome.ok (digitsOnly value) false) := by
  by_cases h2 : fails (digitsOnly value) false = true
  · simp [renderDataMatrix, h, h2]
  · rw [Bool.not_eq_true] at h2
    simp [renderDataMatrix, h, h2]

/-- C5 witness: an always-failing backend on the example GTIN payload
makes exactly two attempts and ends in the placeholder. -/
theorem c5_two_tier_fallback_witness :
    (renderDataMatrix (fun _ _ => true) "00049000000443" none).2
      = [(firstPayload "00049000000443" none, true), (digitsOnly "00049000000443", false)] ∧
    (renderDataMatrix (fun _ _ => true) "00049000000443" none).1
      = DMOutcome.placeholder "GS1 2D DataMatrix" "00049000000443" := by
  have h := c5_two_tier_fallback (fun _ _ => true) "00049000000443" none rfl
  exact ⟨h.1, h.2.1 rfl⟩

/-- C9, counterexample to the claim as stated: on a field set with
every field absent (`undefined`), the build function throws a
TypeError at `formData.sku.padStart(14, "0")`, so it is not total
over arbitrary field sets. -/
theorem c9_counterexample :
    buildGs1StringJS allAbsent
      = Except.error "TypeError: cannot read padStart of undefined" := rfl

/-- C9 (amended): `buildGs1String` never throws on any field set that
supplies the SKU as a string — which the component guarantees, its
form state initialising `sku` to `""` and keeping it a string — no
matter which other fields are absent, empty or malformed; those are
omitted or truncated, never an error.  (Only a field set lacking both
`gtin` and `sku` reaches the TypeError of the counterexample.) -/
theorem c9_build_total (fd : GS1FieldsOpt) (s : String) (hs : fd.sku = some s) :
    ∃ out, buildGs1StringJS fd = Except.ok out := by
  unfold buildGs1StringJS
  by_cases hg : jsTruthyO fd.gtin = true
  · rw [if_pos hg]
    exact ⟨_, rfl⟩
  · rw [if_neg hg, hs]
    exact ⟨_, rfl⟩

/-- C9 witness: the theorem applied to the field set with `sku`
present but empty and everything else absent. -/
theorem c9_build_total_witness :
    ∃ out, buildGs1StringJS { allAbsent with sku := some "" } = Except.ok out :=
  c9_build_total { allAbsent with sku := some "" } "" rfl

theorem str_contains_iff_mem (l : List String) (a : String) :
    l.contains a = true ↔ a ∈ l := by
  rw [show l.contains a = l.elem a from rfl]
  exact List.elem_iff

theorem dupScan_cons (existing : List Item) (seen : List String) (j : Item)
    (rest : List Item) :
    dupScan existing seen (j :: rest)
      = if matchesExisting existing j = true
          then j :: dupScan existing (lsk j :: seen) rest
        else if seen.contains (lsk j) = true
          then j :: dupScan existing (lsk j :: seen) rest
        else dupScan existing (lsk j :: seen) rest := rfl

/-- Flagged SKUs only grow when the scan is started one item
earlier. -/
theorem dupScan_mono (existing : List Item) (seen : List String) (j : Item)
    (rest : List Item) (s : String)
    (h : s ∈ (dupScan existing (lsk j :: seen) rest).map lsk) :
    s ∈ (dupScan existing seen (j :: rest)).map lsk := by
  rw [dupScan_cons]
  split
  · rw [List.map_cons]
    exact List.mem_cons.mpr (Or.inr h)
  · split
    · rw [List.map_cons]
      exact List.mem_cons.mpr (Or.inr h)
    · exact h

/-- A batch item matching an existing item is always flagged. -/
theorem dupScan_mem_of_matches (existing : List Item) (batch : List Item) :
    ∀ (seen : List String) (i : Item), i ∈ batch →
      matchesExisting existing i = true →
      lsk i ∈ (dupScan existing seen batch).map lsk := by
  induction batch with
  | nil => intro seen i hi _; exact absurd hi (List.not_mem_nil i)
  | cons j rest ih =>
    intro seen i hi hm
    rcases List.mem_cons.mp hi with rfl | hrest
    · rw [dupScan_cons, if_pos hm, List.map_cons]
      exact List.mem_cons_self _ _
    · exact dupScan_mono existing seen j rest _ (ih (lsk j :: seen) i hrest hm)

/-- A batch item whose lowercased SKU is already in the seen set is
always flagged. -/
theorem dupScan_mem_of_seen (existing : List Item) (batch : List Item) :
    ∀ (seen : List String) (i : Item), i ∈ batch → lsk i ∈ seen →
      lsk i ∈ (dupScan existing seen batch).map lsk := by
  induction batch with
  | nil => intro seen i hi _; exact absurd hi (List.not_mem_nil i)
  | cons j rest ih =>
    intro seen i hi hs
    rcases List.mem_cons.mp hi with rfl | hrest
    · rw [dupScan_cons]
      by_cases hm : matchesExisting existing i = true
      · rw [if_pos hm, List.map_cons]
        exact List.mem_cons_self _ _
      · rw [if_neg hm, if_pos ((str_contains_iff_mem seen (lsk i)).mpr hs),
          List.map_cons]
        exact List.mem_cons_self _ _
    · exact dupScan_mono existing seen j rest _
        (ih (lsk j :: seen) i hrest (List.mem_cons.mpr (Or.inr hs)))

/-- The batch items that survive the duplicate filter have pairwise
distinct lowercased SKUs. -/
theorem dupScan_filter_pairwise (existing : List Item) (batch : List Item) :
    ∀ seen : List String,
      List.Pairwise (fun a b => lsk a ≠ lsk b)
        (batch.filter
          (fun i => ! ((dupScan existing seen batch).map lsk).contains (lsk i))) := by
  induction batch with
  | nil => intro seen; simp
  | cons j rest ih =>
    intro seen
    have hsub : ∀ s, s ∈ (dupScan existing (lsk j :: seen) rest).map lsk →
        s ∈ (dupScan existing seen (j :: rest)).map lsk :=
      fun s => dupScan_mono existing seen j rest s
    have hmono : List.Sublist
        (rest.filter
          (fun i => ! ((dupScan existing seen (j :: rest)).map lsk).contains (lsk i)))
        (rest.filter
          (fun i => ! ((dupScan existing (lsk j :: seen) rest).map lsk).contains (lsk i))) := by
      apply List.monotone_filter_right
      intro a ha
      rw [Bool.not_eq_true'] at ha ⊢
      rw [← Bool.not_eq_true] at ha ⊢
      intro hmem
      exact ha ((str_contains_iff_mem _ _).mpr
        (hsub _ ((str_contains_iff_mem _ _).mp hmem)))
    have hrest : List.Pairwise (fun a b => lsk a ≠ lsk b)
        (rest.filter
          (fun i => ! ((dupScan existing seen (j :: rest)).map lsk).contains (lsk i))) :=
      (ih (lsk j :: seen)).sublist hmono
    rw [List.filter_cons]
    split
    · rw [List.pairwise_cons]
      refine ⟨?_, hrest⟩
      intro b hb heq
      have hb2 := List.mem_filter.mp hb
      have hbseen : lsk b ∈ (dupScan existing (lsk j :: seen) rest).map lsk := by
        apply dupScan_mem_of_seen existing rest (lsk j :: seen) b hb2.1
        rw [← heq]
        exact List.mem_cons_self _ _
      have hbD := hsub _ hbseen
      have := hb2.2
      rw [Bool.not_eq_true', ← Bool.not_eq_true] at this
      exact this ((str_contains_iff_mem _ _).mpr hbD)
    · exact hrest

/-- C10: SKU uniqueness is enforced case-insensitively.  For a new
item (no edit target), `checkDuplicate` flags the candidate SKU
exactly when some existing item has the same SKU after lowercasing
both; and the import flow preserves the invariant: if the existing
catalog-plus-custom set has pairwise distinct lowercased SKUs, then
after filtering out the flagged duplicates, the combined set of
existing items and imported items still has pairwise distinct
lowercased SKUs — no two entries differ only in letter case. -/
theorem c10_sku_case_insensitive (existing : List Item) (sku : String)
    (batch : List Item) (hsku : sku ≠ "") :
    ((checkDuplicate existing none sku).isSome = true
      ↔ ∃ e ∈ existing, e.sku.toLower = sku.toLower) ∧
    (List.Pairwise (fun a b => lsk a ≠ lsk b) existing →
      List.Pairwise (fun a b => lsk a ≠ lsk b)
        (existing ++ itemsToImport existing batch)) := by
  constructor
  · unfold checkDuplicate
    rw [if_neg hsku, List.find?_isSome]
    constructor
    · rintro ⟨e, he, hp⟩
      rw [Bool.and_eq_true, beq_iff_eq] at hp
      exact ⟨e, he, hp.1⟩
    · rintro ⟨e, he, hp⟩
      refine ⟨e, he, ?_⟩
      rw [Bool.and_eq_true, beq_iff_eq]
      exact ⟨hp, rfl⟩
  · intro hex
    rw [List.pairwise_append]
    refine ⟨hex, ?_, ?_⟩
    · exact dupScan_filter_pairwise existing batch []
    · intro a ha b hb heq
      have hb2 := List.mem_filter.mp hb
      have hmatch : matchesExisting existing b = true := by
        rw [matchesExisting, List.any_eq_true]
        exact ⟨a, ha, by rw [beq_iff_eq]; exact heq⟩
      have hbD : lsk b ∈ (dupScan existing [] batch).map lsk :=
        dupScan_mem_of_matches existing batch [] b hb2.1 hmatch
      have := hb2.2
      rw [Bool.not_eq_true', ← Bool.not_eq_true] at this
      exact this ((str_contains_iff_mem _ _).mpr hbD)

/-- C10 witness: the theorem applied to a concrete catalog and import
batch with case-variant SKUs. -/
theorem c10_sku_case_insensitive_witness :
    ((checkDuplicate [⟨"ABC", "x"⟩] none "abc").isSome = true
      ↔ ∃ e ∈ [(⟨"ABC", "x"⟩ : Item)], e.sku.toLower = "abc".toLower) ∧
    (List.Pairwise (fun a b => lsk a ≠ lsk b) [(⟨"ABC", "x"⟩ : Item)] →
      List.Pairwise (fun a b => lsk a ≠ lsk b)
        ([(⟨"ABC", "x"⟩ : Item)] ++ itemsToImport [⟨"ABC", "x"⟩]
          [⟨"abc", "a"⟩, ⟨"DEF", "b"⟩, ⟨"def", "c"⟩, ⟨"ghi", "d"⟩])) :=
  c10_sku_case_insensitive [⟨"ABC", "x"⟩] "abc"
    [⟨"abc", "a"⟩, ⟨"DEF", "b"⟩, ⟨"def", "c"⟩, ⟨"ghi", "d"⟩] (by decide)

end ScanBook
